import Mathlib

/-!
# The common overrides of the tssx shared-memory transport

A shallow embedding of `source/tssx/source/common-overrides.c`.

* C `int` values are integers.  The only integer operations of the file are
  comparisons and one bitwise `&`, so no arithmetic can overflow.
* The process state the file works on (the global `bridge`, the `Connection`
  objects reached through `session->connection`, `errno`) is an explicit
  `World` that every function takes and returns.
* Every call that leaves the translation unit is appended to `World.trace`,
  so that "forwards to", "is not looked up" and "exactly once" are statements
  about the trace.
* Functions outside the repository (`fcntl` and `fork` of libc found through
  `dlsym`) and functions of the repository that only compute a return value
  for this file (`real_write`, `real_read`, `buffer_write`, `buffer_read`) are
  oracles collected in `Env`; an oracle sees the whole `World`, history
  included, at the moment of the call.  What such a call does to memory that
  the file never inspects (user buffers, ring contents, kernel state, the
  `errno` of a failing system call) is not part of the `World`.
-/

namespace Tssx

/-! ## Constants taken from headers -/

/-- Symbolic constants that the file uses and that are defined in headers
outside the two source files: `TSSX_KEY_OFFSET`, `ERROR`, `SUCCESS` (tssx
headers), the `fcntl` commands and `O_NONBLOCK` (`<fcntl.h>`), `EINVAL`
(`<errno.h>`), `AF_LOCAL` and `SOCK_STREAM` (`<sys/socket.h>`).  They are a
parameter of every function. -/
structure Consts where
  TSSX_KEY_OFFSET : Int
  ERROR : Int
  SUCCESS : Int
  F_SETFL : Int
  F_SETFD : Int
  F_GETFL : Int
  F_GETFD : Int
  O_NONBLOCK : Int
  EINVAL : Int
  AF_LOCAL : Int
  SOCK_STREAM : Int
  deriving DecidableEq, Repr

/-! ## Data model -/

/-- Value of a `Connection*`: the null pointer, the sentinel
`META_STABLE_CONNECTION`, or the address of an object.  The sentinel is taken
to differ from `NULL` and from every object address, as the `else if` chain of
`fcntl_set` presupposes. -/
inductive ConnectionPtr where
  | NULL
  | META_STABLE_CONNECTION
  | object (address : Nat)
  deriving DecidableEq, Repr

/-- Record `Connection`: two `Buffer*` (addresses) and the non-blocking flag.
The flag has the C type `bool`, which `common/utility.h` declares as
`typedef enum { false, true } bool;`, an integer type: it holds the integer
that was assigned and is tested for being non-zero. -/
structure Connection where
  client_buffer : Nat
  server_buffer : Nat
  non_blocking : Int
  deriving DecidableEq, Repr

/-- Record `Session` as the spec's data model gives it:
`{ key, real_socket_descriptor, connection, valid }`.  The file reads
`session->socket` and `session->connection`. -/
structure Session where
  key : Int
  socket : Int
  connection : ConnectionPtr
  valid : Bool
  deriving DecidableEq, Repr

/-- Record `Bridge` as the spec's data model gives it: the key-to-session
mapping, the attachment reference count, and whether `init` has run. -/
structure Bridge where
  initialized : Bool
  sessions : List Session
  users : Nat
  deriving DecidableEq, Repr

/-- Calls that leave the translation unit, in the order they are made. -/
inductive Call where
  | libc_fcntl (fd command : Int) (argument : Option Int)
  | libc_fork
  | real_write (fd : Int) (source : Nat) (requested_bytes : Int)
  | real_read (fd : Int) (destination : Nat) (requested_bytes : Int)
  | bridge_is_initialized
  | bridge_add_user
  | bridge_lookup (key : Int)
  | session_is_valid (session : Option Session)
  | get_buffer (connection : ConnectionPtr) (which_buffer : Int)
  | buffer_write (buffer : Nat) (source : Nat) (requested_bytes : Int)
  | buffer_read (buffer : Nat) (destination : Nat) (requested_bytes : Int)
  | set_non_blocking (connection : ConnectionPtr) (non_blocking : Int)
  | get_non_blocking (connection : ConnectionPtr)
  deriving DecidableEq, Repr

/-- Process state: the global `bridge`, the `Connection` objects by address,
`errno`, and the calls made so far. -/
structure World where
  bridge : Bridge
  connections : Nat → Option Connection
  errno : Int
  trace : List Call

/-- How a call of one of the file's functions ends: it returns a value, the
`assert` aborts the process, or it dereferences a pointer that addresses no
object (undefined behaviour in C). -/
inductive Outcome where
  | returned (value : Int)
  | assertion_failed
  | invalid_access
  deriving DecidableEq, Repr

/-- Return values of the functions the file calls and does not define. -/
structure Env where
  libc_fcntl : World → Int → Int → Option Int → Int
  libc_fork : World → Int
  real_write : World → Int → Nat → Int → Int
  real_read : World → Int → Nat → Int → Int
  buffer_write : World → Nat → Nat → Int → Int
  buffer_read : World → Nat → Nat → Int → Int

/-- Append a call to the trace. -/
def World.record (w : World) (c : Call) : World :=
  { w with trace := w.trace ++ [c] }

/-- Object a `Connection*` addresses, if any. -/
def World.load (w : World) : ConnectionPtr → Option Connection
  | .object a => w.connections a
  | _ => none

/-- Overwrite the `Connection` object at an address. -/
def World.store (w : World) (a : Nat) (c : Connection) : World :=
  { w with connections := fun x => if x = a then some c else w.connections x }

/-! ## Functions of the repository that the file calls and does not define -/

/-- Modelled from the spec: `bridge_is_initialized` (tssx/bridge.h is not
among the sources).  The Bridge is a "process-wide singleton with explicit
init"; the function reports whether init has run. -/
def bridge_is_initialized (w : World) : Bool × World :=
  (w.bridge.initialized, w.record .bridge_is_initialized)

/-- Modelled from the spec: `bridge_add_user` (tssx/bridge.h is not among the
sources).  "`add_user()`: called when the process forks while the Bridge is
initialized; increments the attachment reference count." -/
def bridge_add_user (w : World) : World :=
  { w with bridge := { w.bridge with users := w.bridge.users + 1 } }.record .bridge_add_user

/-- Modelled from the spec: `bridge_lookup` (tssx/bridge.h is not among the
sources).  "`lookup(key) -> Option<&Session>`", with keys unique; an unknown
key yields "no such session". -/
def bridge_lookup (w : World) (key : Int) : Option Session × World :=
  (w.bridge.sessions.find? (fun s => s.key == key), w.record (.bridge_lookup key))

/-- Modelled from the spec: `session_is_valid` (tssx/session.h is not among
the sources).  A session is invalid when the key was "looked up but not
found, or found but marked invalid". -/
def session_is_valid (w : World) (session : Option Session) : Bool × World :=
  (match session with
    | none => false
    | some s => s.valid,
   w.record (.session_is_valid session))

/-- Modelled from the spec: `set_non_blocking` (tssx/connection.h is not among
the sources).  It "updates the Connection's non-blocking flag".  The result is
`none` when the pointer addresses no object. -/
def set_non_blocking (w : World) (connection : ConnectionPtr) (non_blocking : Int) :
    Option World :=
  match connection with
  | .object a =>
    match w.connections a with
    | some c =>
      some ((w.record (.set_non_blocking connection non_blocking)).store a
        { c with non_blocking := non_blocking })
    | none => none
  | _ => none

/-- Modelled from the spec: `get_non_blocking` (tssx/connection.h is not among
the sources).  It reads the Connection's non-blocking flag.  The value is
`none` when the pointer addresses no object. -/
def get_non_blocking (w : World) (connection : ConnectionPtr) : Option Int × World :=
  ((w.load connection).map (fun c => c.non_blocking),
   w.record (.get_non_blocking connection))

/-- Oracle call of `real_write`, declared in tssx/common-overrides.h. -/
def real_write (env : Env) (w : World) (fd : Int) (source : Nat) (requested_bytes : Int) :
    Outcome × World :=
  (.returned (env.real_write w fd source requested_bytes),
   w.record (.real_write fd source requested_bytes))

/-- Oracle call of `real_read`, declared in tssx/common-overrides.h. -/
def real_read (env : Env) (w : World) (fd : Int) (destination : Nat)
    (requested_bytes : Int) : Outcome × World :=
  (.returned (env.real_read w fd destination requested_bytes),
   w.record (.real_read fd destination requested_bytes))

/-- Oracle call of `buffer_write`, declared in tssx/buffer.h. -/
def buffer_write (env : Env) (w : World) (buffer : Nat) (source : Nat)
    (requested_bytes : Int) : Outcome × World :=
  (.returned (env.buffer_write w buffer source requested_bytes),
   w.record (.buffer_write buffer source requested_bytes))

/-- Oracle call of `buffer_read`, declared in tssx/buffer.h. -/
def buffer_read (env : Env) (w : World) (buffer : Nat) (destination : Nat)
    (requested_bytes : Int) : Outcome × World :=
  (.returned (env.buffer_read w buffer destination requested_bytes),
   w.record (.buffer_read buffer destination requested_bytes))

/-! ## common-overrides.c: real functions -/

/-- Source lines 15-17: the libc `fcntl` with three arguments. -/
def real_fcntl_set_flags (env : Env) (w : World) (fd command flag : Int) : Outcome × World :=
  (.returned (env.libc_fcntl w fd command (some flag)),
   w.record (.libc_fcntl fd command (some flag)))

/-- Source lines 19-21: the libc `fcntl` with two arguments. -/
def real_fcntl_get_flags (env : Env) (w : World) (fd command : Int) : Outcome × World :=
  (.returned (env.libc_fcntl w fd command none),
   w.record (.libc_fcntl fd command none))

/-- Source lines 23-25: the libc `fork`. -/
def real_fork (env : Env) (w : World) : Outcome × World :=
  (.returned (env.libc_fork w), w.record .libc_fork)

/-! ## common-overrides.c: helpers -/

/-- Source lines 127-129: `which_buffer ? connection->client_buffer :
connection->server_buffer`.  The value is `none` when `connection` addresses
no object. -/
def get_buffer (w : World) (connection : ConnectionPtr) (which_buffer : Int) :
    Option Nat × World :=
  ((w.load connection).map
      (fun c => if which_buffer ≠ 0 then c.client_buffer else c.server_buffer),
   w.record (.get_buffer connection which_buffer))

/-- Source lines 131-161. -/
def fcntl_set (k : Consts) (env : Env) (w : World) (fd command flags : Int) :
    Outcome × World :=
  if fd < k.TSSX_KEY_OFFSET then
    real_fcntl_set_flags env w fd command flags
  else
    let session := (bridge_lookup w fd).1
    let w1 := (bridge_lookup w fd).2
    if !(session_is_valid w1 session).1 then
      (.returned k.ERROR, { (session_is_valid w1 session).2 with errno := k.EINVAL })
    else
      let w2 := (session_is_valid w1 session).2
      match session with
      | none => (.invalid_access, w2)
      | some s =>
        if s.connection = .NULL then
          real_fcntl_set_flags env w2 s.socket command flags
        else if s.connection = .META_STABLE_CONNECTION then
          (.returned k.ERROR, w2)
        else
          let non_blocking := Int.land flags k.O_NONBLOCK
          match set_non_blocking w2 s.connection non_blocking with
          | none => (.invalid_access, w2)
          | some w3 => (.returned k.SUCCESS, w3)

/-- Source lines 163-190. -/
def fcntl_get (k : Consts) (env : Env) (w : World) (fd command : Int) : Outcome × World :=
  if fd < k.TSSX_KEY_OFFSET then
    real_fcntl_get_flags env w fd command
  else
    let session := (bridge_lookup w fd).1
    let w1 := (bridge_lookup w fd).2
    if !(session_is_valid w1 session).1 then
      (.returned k.ERROR, { (session_is_valid w1 session).2 with errno := k.EINVAL })
    else
      let w2 := (session_is_valid w1 session).2
      match session with
      | none => (.invalid_access, w2)
      | some s =>
        if s.connection = .NULL then
          real_fcntl_get_flags env w2 s.socket command
        else if s.connection = .META_STABLE_CONNECTION then
          (.returned k.ERROR, { w2 with errno := k.EINVAL })
        else if command = k.F_GETFL then
          match get_non_blocking w2 s.connection with
          | (none, w3) => (.invalid_access, w3)
          | (some flag, w3) => (.returned (if flag ≠ 0 then k.O_NONBLOCK else 0), w3)
        else
          (.returned k.ERROR, w2)

/-! ## common-overrides.c: common overrides -/

/-- Source lines 29-45.  `argument` is the first optional argument, which
`va_arg(argument, int)` reads on the set path. -/
def fcntl (k : Consts) (env : Env) (w : World) (fd command argument : Int) :
    Outcome × World :=
  if command = k.F_SETFL ∨ command = k.F_SETFD then
    fcntl_set k env w fd command argument
  else if command = k.F_GETFL ∨ command = k.F_GETFD then
    fcntl_get k env w fd command
  else
    (.returned k.ERROR, w)

/-- Source lines 47-53. -/
def fork (env : Env) (w : World) : Outcome × World :=
  if (bridge_is_initialized w).1 then
    real_fork env (bridge_add_user (bridge_is_initialized w).2)
  else
    real_fork env (bridge_is_initialized w).2

/-! ## common-overrides.c: interface -/

/-- Source lines 57-82. -/
def connection_write (k : Consts) (env : Env) (w : World) (key : Int) (source : Nat)
    (requested_bytes which_buffer : Int) : Outcome × World :=
  if key < k.TSSX_KEY_OFFSET then
    real_write env w key source requested_bytes
  else
    let session := (bridge_lookup w key).1
    let w1 := (bridge_lookup w key).2
    let w2 := (session_is_valid w1 session).2
    if !(session_is_valid w1 session).1 then
      (.assertion_failed, w2)
    else
      match session with
      | none => (.invalid_access, w2)
      | some s =>
        if s.connection = .NULL then
          real_write env w2 s.socket source requested_bytes
        else
          match get_buffer w2 s.connection which_buffer with
          | (none, w3) => (.invalid_access, w3)
          | (some buffer, w3) => buffer_write env w3 buffer source requested_bytes

/-- Source lines 84-107. -/
def connection_read (k : Consts) (env : Env) (w : World) (key : Int) (destination : Nat)
    (requested_bytes which_buffer : Int) : Outcome × World :=
  if key < k.TSSX_KEY_OFFSET then
    real_read env w key destination requested_bytes
  else
    let session := (bridge_lookup w key).1
    let w1 := (bridge_lookup w key).2
    let w2 := (session_is_valid w1 session).2
    if !(session_is_valid w1 session).1 then
      (.assertion_failed, w2)
    else
      match session with
      | none => (.invalid_access, w2)
      | some s =>
        if s.connection = .NULL then
          real_read env w2 s.socket destination requested_bytes
        else
          match get_buffer w2 s.connection which_buffer with
          | (none, w3) => (.invalid_access, w3)
          | (some buffer, w3) => buffer_read env w3 buffer destination requested_bytes

/-- Source lines 109-123: `domain == AF_LOCAL && type == SOCK_STREAM`, an
`int` that is 1 or 0. -/
def socket_is_stream_and_domain (k : Consts) (domain type : Int) : Int :=
  if domain = k.AF_LOCAL ∧ type = k.SOCK_STREAM then 1 else 0

/-! ## States of a session and sample data -/

/-- The Bridge maps `key` to the session `s`. -/
def World.finds (w : World) (key : Int) (s : Session) : Prop :=
  (bridge_lookup w key).1 = some s

/-- State `Connected`: the session's `connection` field is the address `a` of
the Connection object `c`. -/
def World.connected (w : World) (s : Session) (a : Nat) (c : Connection) : Prop :=
  s.connection = .object a ∧ w.connections a = some c

/-- Calls that transfer data: a real read or write, or a use of a Buffer. -/
def Call.is_transfer : Call → Bool
  | .real_write _ _ _ => true
  | .real_read _ _ _ => true
  | .get_buffer _ _ => true
  | .buffer_write _ _ _ => true
  | .buffer_read _ _ _ => true
  | _ => false

/-- Sample values of the constants: the Linux values of the `<fcntl.h>`,
`<errno.h>` and `<sys/socket.h>` names, `ERROR = -1`, `SUCCESS = 0`, and a
sample key offset. -/
def sample_consts : Consts :=
  { TSSX_KEY_OFFSET := 1000000, ERROR := -1, SUCCESS := 0,
    F_SETFL := 4, F_SETFD := 2, F_GETFL := 3, F_GETFD := 1,
    O_NONBLOCK := 2048, EINVAL := 22, AF_LOCAL := 1, SOCK_STREAM := 1 }

/-- Sample oracles: every real call returns 7, every buffer call the
requested byte count, `fork` the pid 4242. -/
def sample_env : Env :=
  { libc_fcntl := fun _ _ _ _ => 7
    libc_fork := fun _ => 4242
    real_write := fun _ _ _ _ => 7
    real_read := fun _ _ _ _ => 7
    buffer_write := fun _ _ _ n => n
    buffer_read := fun _ _ _ n => n }

/-- Sample registry: one session in each state and one marked invalid. -/
def sample_sessions : List Session :=
  [ { key := 1000000, socket := 5, connection := .NULL, valid := true },
    { key := 1000001, socket := 6, connection := .META_STABLE_CONNECTION, valid := true },
    { key := 1000002, socket := 8, connection := .object 64, valid := true },
    { key := 1000003, socket := 9, connection := .NULL, valid := false } ]

/-- Sample process state: an initialized Bridge with one attached process and
one Connection object, at address 64, whose non-blocking flag is set. -/
def sample_world : World :=
  { bridge := { initialized := true, sessions := sample_sessions, users := 1 }
    connections := fun a =>
      if a = 64 then
        some { client_buffer := 128, server_buffer := 256, non_blocking := 2048 }
      else none
    errno := 0
    trace := [] }

/-- Descriptor handed to a real call (`fcntl` of libc, `real_write`,
`real_read`); `none` for every other call. -/
def Call.real_fd : Call → Option Int
  | .libc_fcntl fd _ _ => some fd
  | .real_write fd _ _ => some fd
  | .real_read fd _ _ => some fd
  | _ => none

/-- A call on `key` that starts in `w` and ends in `r` treated `key` as a
synthetic key: the first thing it did was look `key` up in the Bridge, and
every real call it made afterwards was on the `socket` of the valid session
without Connection that the lookup found. -/
def World.routed_through_bridge (w : World) (key : Int) (r : Outcome × World) : Prop :=
  ∃ t, r.2.trace = w.trace ++ Call.bridge_lookup key :: t
    ∧ ∀ c ∈ t, ∀ d, c.real_fd = some d →
        ∃ s, w.finds key s ∧ s.valid = true ∧ s.connection = .NULL ∧ d = s.socket

/-! ## Theorems -/

/-- C1: for a key below `TSSX_KEY_OFFSET`, `connection_write`,
`connection_read`, `fcntl_set` and `fcntl_get` return what the real call on
the same arguments returns, the only call made is that real call (no Bridge
lookup, no session, connection or buffer access), and the Bridge and the
connections are unchanged. -/
theorem pass_through_below_offset (k : Consts) (env : Env) (w : World) (key : Int)
    (pointer : Nat) (requested_bytes which_buffer command flags : Int)
    (h : key < k.TSSX_KEY_OFFSET) :
    (connection_write k env w key pointer requested_bytes which_buffer
        = real_write env w key pointer requested_bytes
      ∧ (connection_write k env w key pointer requested_bytes which_buffer).1
        = .returned (env.real_write w key pointer requested_bytes)
      ∧ (connection_write k env w key pointer requested_bytes which_buffer).2.trace
        = w.trace ++ [.real_write key pointer requested_bytes]
      ∧ (connection_write k env w key pointer requested_bytes which_buffer).2.bridge
        = w.bridge
      ∧ (connection_write k env w key pointer requested_bytes which_buffer).2.connections
        = w.connections)
    ∧ (connection_read k env w key pointer requested_bytes which_buffer
        = real_read env w key pointer requested_bytes
      ∧ (connection_read k env w key pointer requested_bytes which_buffer).1
        = .returned (env.real_read w key pointer requested_bytes)
      ∧ (connection_read k env w key pointer requested_bytes which_buffer).2.trace
        = w.trace ++ [.real_read key pointer requested_bytes]
      ∧ (connection_read k env w key pointer requested_bytes which_buffer).2.bridge
        = w.bridge
      ∧ (connection_read k env w key pointer requested_bytes which_buffer).2.connections
        = w.connections)
    ∧ (fcntl_set k env w key command flags = real_fcntl_set_flags env w key command flags
      ∧ (fcntl_set k env w key command flags).1
        = .returned (env.libc_fcntl w key command (some flags))
      ∧ (fcntl_set k env w key command flags).2.trace
        = w.trace ++ [.libc_fcntl key command (some flags)]
      ∧ (fcntl_set k env w key command flags).2.bridge = w.bridge
      ∧ (fcntl_set k env w key command flags).2.connections = w.connections)
    ∧ (fcntl_get k env w key command = real_fcntl_get_flags env w key command
      ∧ (fcntl_get k env w key command).1 = .returned (env.libc_fcntl w key command none)
      ∧ (fcntl_get k env w key command).2.trace = w.trace ++ [.libc_fcntl key command none]
      ∧ (fcntl_get k env w key command).2.bridge = w.bridge
      ∧ (fcntl_get k env w key command).2.connections = w.connections) := by
  simp [connection_write, connection_read, fcntl_set, fcntl_get, h, real_write, real_read,
    real_fcntl_set_flags, real_fcntl_get_flags, World.record]

/-- Witness of C1 at the descriptor -3, a negative value below the offset. -/
theorem pass_through_below_offset_witness :
    (-3 : Int) < sample_consts.TSSX_KEY_OFFSET
    ∧ (connection_write sample_consts sample_env sample_world (-3) 0 16 1).1 = .returned 7
    ∧ (fcntl_get sample_consts sample_env sample_world (-3) 3).2.trace
        = [.libc_fcntl (-3) 3 none] :=
  have h := pass_through_below_offset sample_consts sample_env sample_world (-3) 0 16 1 3 0
    (by decide)
  ⟨by decide, h.1.2.1, h.2.2.2.2.2.1⟩

/-- C2: for a key at or above `TSSX_KEY_OFFSET` whose session is valid and has
`connection == NULL`, each of `connection_write`, `connection_read`,
`fcntl_set` and `fcntl_get` returns what the real call on `session->socket`
with the other arguments unchanged returns; after the lookup and the validity
check that real call is the only call made (no buffer call, no flag call), and
the Bridge and the connections are unchanged. -/
theorem socket_only_forwards (k : Consts) (env : Env) (w : World) (key : Int) (s : Session)
    (pointer : Nat) (requested_bytes which_buffer command flags : Int)
    (h : k.TSSX_KEY_OFFSET ≤ key) (hf : w.finds key s) (hv : s.valid = true)
    (hn : s.connection = .NULL) :
    (connection_write k env w key pointer requested_bytes which_buffer
        = real_write env ((w.record (.bridge_lookup key)).record (.session_is_valid (some s)))
            s.socket pointer requested_bytes
      ∧ (connection_write k env w key pointer requested_bytes which_buffer).2.trace
        = w.trace ++ [.bridge_lookup key, .session_is_valid (some s),
            .real_write s.socket pointer requested_bytes]
      ∧ (connection_write k env w key pointer requested_bytes which_buffer).2.bridge
        = w.bridge
      ∧ (connection_write k env w key pointer requested_bytes which_buffer).2.connections
        = w.connections)
    ∧ (connection_read k env w key pointer requested_bytes which_buffer
        = real_read env ((w.record (.bridge_lookup key)).record (.session_is_valid (some s)))
            s.socket pointer requested_bytes
      ∧ (connection_read k env w key pointer requested_bytes which_buffer).2.trace
        = w.trace ++ [.bridge_lookup key, .session_is_valid (some s),
            .real_read s.socket pointer requested_bytes]
      ∧ (connection_read k env w key pointer requested_bytes which_buffer).2.bridge
        = w.bridge
      ∧ (connection_read k env w key pointer requested_bytes which_buffer).2.connections
        = w.connections)
    ∧ (fcntl_set k env w key command flags
        = real_fcntl_set_flags env
            ((w.record (.bridge_lookup key)).record (.session_is_valid (some s)))
            s.socket command flags
      ∧ (fcntl_set k env w key command flags).2.trace
        = w.trace ++ [.bridge_lookup key, .session_is_valid (some s),
            .libc_fcntl s.socket command (some flags)]
      ∧ (fcntl_set k env w key command flags).2.bridge = w.bridge
      ∧ (fcntl_set k env w key command flags).2.connections = w.connections)
    ∧ (fcntl_get k env w key command
        = real_fcntl_get_flags env
            ((w.record (.bridge_lookup key)).record (.session_is_valid (some s)))
            s.socket command
      ∧ (fcntl_get k env w key command).2.trace
        = w.trace ++ [.bridge_lookup key, .session_is_valid (some s),
            .libc_fcntl s.socket command none]
      ∧ (fcntl_get k env w key command).2.bridge = w.bridge
      ∧ (fcntl_get k env w key command).2.connections = w.connections) := by
  have h1 : ¬ key < k.TSSX_KEY_OFFSET := not_lt.mpr h
  have h2 : List.find? (fun x => x.key == key) w.bridge.sessions = some s := hf
  simp [connection_write, connection_read, fcntl_set, fcntl_get, h1, h2, hv, hn,
    bridge_lookup, session_is_valid, real_write, real_read, real_fcntl_set_flags,
    real_fcntl_get_flags, World.record]

/-- Witness of C2 at the sample session with key 1000000 and socket 5. -/
theorem socket_only_forwards_witness :
    (connection_write sample_consts sample_env sample_world 1000000 0 16 1).2.trace
        = [.bridge_lookup 1000000,
            .session_is_valid
              (some { key := 1000000, socket := 5, connection := .NULL, valid := true }),
            .real_write 5 0 16]
    ∧ (fcntl_set sample_consts sample_env sample_world 1000000 4 2048).2.trace
        = [.bridge_lookup 1000000,
            .session_is_valid
              (some { key := 1000000, socket := 5, connection := .NULL, valid := true }),
            .libc_fcntl 5 4 (some 2048)] :=
  have h := socket_only_forwards sample_consts sample_env sample_world 1000000
    { key := 1000000, socket := 5, connection := .NULL, valid := true } 0 16 1 4 2048
    (by decide) rfl rfl rfl
  ⟨h.1.2.1, h.2.2.1.2.1⟩

/-- C3: on a valid Connected session at a key at or above `TSSX_KEY_OFFSET`,
`fcntl_set(key, F_SETFL, flags)` returns `SUCCESS`, and `fcntl_get(key,
F_GETFL)` called next returns `O_NONBLOCK` when `flags & O_NONBLOCK` is
non-zero and 0 otherwise. -/
theorem flag_round_trip (k : Consts) (env : Env) (w : World) (key : Int) (s : Session)
    (a : Nat) (c : Connection) (flags : Int)
    (h : k.TSSX_KEY_OFFSET ≤ key) (hf : w.finds key s) (hv : s.valid = true)
    (hc : w.connected s a c) :
    (fcntl_set k env w key k.F_SETFL flags).1 = .returned k.SUCCESS
    ∧ (fcntl_get k env (fcntl_set k env w key k.F_SETFL flags).2 key k.F_GETFL).1
        = .returned (if Int.land flags k.O_NONBLOCK ≠ 0 then k.O_NONBLOCK else 0) := by
  have h1 : ¬ key < k.TSSX_KEY_OFFSET := not_lt.mpr h
  have h2 : List.find? (fun x => x.key == key) w.bridge.sessions = some s := hf
  obtain ⟨ha, hl⟩ := hc
  simp [fcntl_set, fcntl_get, h1, h2, hv, ha, hl, bridge_lookup, session_is_valid,
    set_non_blocking, get_non_blocking, World.record, World.store, World.load]

/-- Witness of C3 at the sample Connected session, key 1000002, setting
`O_NONBLOCK | O_APPEND` (2048 + 1024) and setting 1024 alone. -/
theorem flag_round_trip_witness :
    (fcntl_get sample_consts sample_env
        (fcntl_set sample_consts sample_env sample_world 1000002 4 3072).2 1000002 3).1
      = .returned 2048
    ∧ (fcntl_get sample_consts sample_env
        (fcntl_set sample_consts sample_env sample_world 1000002 4 1024).2 1000002 3).1
      = .returned 0 :=
  ⟨(flag_round_trip sample_consts sample_env sample_world 1000002
      { key := 1000002, socket := 8, connection := .object 64, valid := true } 64
      { client_buffer := 128, server_buffer := 256, non_blocking := 2048 } 3072
      (by decide) rfl rfl ⟨rfl, rfl⟩).2,
   (flag_round_trip sample_consts sample_env sample_world 1000002
      { key := 1000002, socket := 8, connection := .object 64, valid := true } 64
      { client_buffer := 128, server_buffer := 256, non_blocking := 2048 } 1024
      (by decide) rfl rfl ⟨rfl, rfl⟩).2⟩

/-- C4 (what the code does): on a valid MetaStable session at a key at or above
`TSSX_KEY_OFFSET`, `connection_write` and `connection_read` do not return an
error value: they pass the sentinel `META_STABLE_CONNECTION` to `get_buffer`,
which dereferences it. -/
theorem meta_stable_io_uses_sentinel (k : Consts) (env : Env) (w : World) (key : Int)
    (s : Session) (pointer : Nat) (requested_bytes which_buffer : Int)
    (h : k.TSSX_KEY_OFFSET ≤ key) (hf : w.finds key s) (hv : s.valid = true)
    (hm : s.connection = .META_STABLE_CONNECTION) :
    ((connection_write k env w key pointer requested_bytes which_buffer).1 = .invalid_access
      ∧ (connection_write k env w key pointer requested_bytes which_buffer).2.trace
        = w.trace ++ [.bridge_lookup key, .session_is_valid (some s),
            .get_buffer .META_STABLE_CONNECTION which_buffer])
    ∧ ((connection_read k env w key pointer requested_bytes which_buffer).1 = .invalid_access
      ∧ (connection_read k env w key pointer requested_bytes which_buffer).2.trace
        = w.trace ++ [.bridge_lookup key, .session_is_valid (some s),
            .get_buffer .META_STABLE_CONNECTION which_buffer]) := by
  have h1 : ¬ key < k.TSSX_KEY_OFFSET := not_lt.mpr h
  have h2 : List.find? (fun x => x.key == key) w.bridge.sessions = some s := hf
  simp [connection_write, connection_read, h1, h2, hv, hm, bridge_lookup, session_is_valid,
    get_buffer, World.record, World.load]

/-- C4 at the failing input: the sample MetaStable session, key 1000001. -/
theorem meta_stable_io_uses_sentinel_witness :
    (connection_write sample_consts sample_env sample_world 1000001 0 16 1).1
      = .invalid_access
    ∧ (connection_read sample_consts sample_env sample_world 1000001 0 16 0).2.trace
      = [.bridge_lookup 1000001,
          .session_is_valid
            (some { key := 1000001, socket := 6, connection := .META_STABLE_CONNECTION,
                    valid := true }),
          .get_buffer .META_STABLE_CONNECTION 0] :=
  ⟨(meta_stable_io_uses_sentinel sample_consts sample_env sample_world 1000001
      { key := 1000001, socket := 6, connection := .META_STABLE_CONNECTION, valid := true }
      0 16 1 (by decide) rfl rfl rfl).1.1,
   (meta_stable_io_uses_sentinel sample_consts sample_env sample_world 1000001
      { key := 1000001, socket := 6, connection := .META_STABLE_CONNECTION, valid := true }
      0 16 0 (by decide) rfl rfl rfl).2.2⟩

/-- C5: on a valid MetaStable session at a key at or above `TSSX_KEY_OFFSET`,
for every command and flags, `fcntl_set` and `fcntl_get` return `ERROR`, make
no call after the lookup and the validity check (no real `fcntl`, no flag
call), and leave the Bridge and the connections unchanged, so the key still
maps to the same MetaStable session. -/
theorem meta_stable_flag_rejection (k : Consts) (env : Env) (w : World) (key : Int)
    (s : Session) (command flags : Int)
    (h : k.TSSX_KEY_OFFSET ≤ key) (hf : w.finds key s) (hv : s.valid = true)
    (hm : s.connection = .META_STABLE_CONNECTION) :
    ((fcntl_set k env w key command flags).1 = .returned k.ERROR
      ∧ (fcntl_set k env w key command flags).2.trace
        = w.trace ++ [.bridge_lookup key, .session_is_valid (some s)]
      ∧ (fcntl_set k env w key command flags).2.bridge = w.bridge
      ∧ (fcntl_set k env w key command flags).2.connections = w.connections
      ∧ (fcntl_set k env w key command flags).2.finds key s)
    ∧ ((fcntl_get k env w key command).1 = .returned k.ERROR
      ∧ (fcntl_get k env w key command).2.trace
        = w.trace ++ [.bridge_lookup key, .session_is_valid (some s)]
      ∧ (fcntl_get k env w key command).2.bridge = w.bridge
      ∧ (fcntl_get k env w key command).2.connections = w.connections
      ∧ (fcntl_get k env w key command).2.finds key s) := by
  have h1 : ¬ key < k.TSSX_KEY_OFFSET := not_lt.mpr h
  have h2 : List.find? (fun x => x.key == key) w.bridge.sessions = some s := hf
  simp [fcntl_set, fcntl_get, h1, h2, hv, hm, bridge_lookup, session_is_valid,
    World.record, World.finds]

/-- Witness of C5 at the sample MetaStable session, key 1000001. -/
theorem meta_stable_flag_rejection_witness :
    (fcntl_set sample_consts sample_env sample_world 1000001 4 2048).1 = .returned (-1)
    ∧ (fcntl_get sample_consts sample_env sample_world 1000001 3).1 = .returned (-1) :=
  have h := meta_stable_flag_rejection sample_consts sample_env sample_world 1000001
    { key := 1000001, socket := 6, connection := .META_STABLE_CONNECTION, valid := true }
    4 2048 (by decide) rfl rfl rfl
  ⟨h.1.1,
   (meta_stable_flag_rejection sample_consts sample_env sample_world 1000001
      { key := 1000001, socket := 6, connection := .META_STABLE_CONNECTION, valid := true }
      3 0 (by decide) rfl rfl rfl).2.1⟩

/-- C6 as stated fails: with the sample constants, descriptor 3 is below the
offset and command 0 (`F_DUPFD` on Linux) is none of the four commands; the
real `fcntl` would return 7, and `fcntl(3, 0, 10)` returns `ERROR` (-1) and
makes no call at all. -/
theorem fcntl_other_command_not_forwarded :
    (3 : Int) < sample_consts.TSSX_KEY_OFFSET
    ∧ (fcntl sample_consts sample_env sample_world 3 0 10).1 = .returned (-1)
    ∧ (fcntl sample_consts sample_env sample_world 3 0 10).2.trace = []
    ∧ sample_env.libc_fcntl sample_world 3 0 (some 10) = 7
    ∧ sample_env.libc_fcntl sample_world 3 0 none = 7 := by
  refine ⟨by decide, ?_, ?_, rfl, rfl⟩
  · simp [fcntl, sample_consts]
  · simp [fcntl, sample_consts, sample_world]

/-- C6 amended: for a descriptor below `TSSX_KEY_OFFSET`, `fcntl` forwards
`F_SETFL` and `F_SETFD` to the real `fcntl` with `(fd, command, argument)` and
`F_GETFL` and `F_GETFD` with `(fd, command)`, returning the real call's value
with that call the only one made; for every other command it returns `ERROR`,
makes no call and changes nothing. -/
theorem fcntl_below_offset_by_command (k : Consts) (env : Env) (w : World)
    (fd command argument : Int) (h : fd < k.TSSX_KEY_OFFSET) :
    (command = k.F_SETFL ∨ command = k.F_SETFD →
      (fcntl k env w fd command argument).1
          = .returned (env.libc_fcntl w fd command (some argument))
        ∧ (fcntl k env w fd command argument).2.trace
          = w.trace ++ [.libc_fcntl fd command (some argument)])
    ∧ (¬ (command = k.F_SETFL ∨ command = k.F_SETFD) →
        command = k.F_GETFL ∨ command = k.F_GETFD →
      (fcntl k env w fd command argument).1 = .returned (env.libc_fcntl w fd command none)
        ∧ (fcntl k env w fd command argument).2.trace
          = w.trace ++ [.libc_fcntl fd command none])
    ∧ (¬ (command = k.F_SETFL ∨ command = k.F_SETFD) →
        ¬ (command = k.F_GETFL ∨ command = k.F_GETFD) →
      fcntl k env w fd command argument = (.returned k.ERROR, w)) := by
  refine ⟨fun hs => ?_, fun hs hg => ?_, fun hs hg => ?_⟩
  · simp [fcntl, hs, fcntl_set, h, real_fcntl_set_flags, World.record]
  · simp [fcntl, hs, hg, fcntl_get, h, real_fcntl_get_flags, World.record]
  · simp [fcntl, hs, hg]

/-- Witness of C6 amended at descriptor 3: `F_SETFL` (4) and `F_GETFD` (1) are
forwarded, command 0 is not. -/
theorem fcntl_below_offset_by_command_witness :
    (fcntl sample_consts sample_env sample_world 3 4 2048).2.trace
        = [.libc_fcntl 3 4 (some 2048)]
    ∧ (fcntl sample_consts sample_env sample_world 3 1 0).2.trace = [.libc_fcntl 3 1 none]
    ∧ fcntl sample_consts sample_env sample_world 3 0 10 = (.returned (-1), sample_world) :=
  ⟨((fcntl_below_offset_by_command sample_consts sample_env sample_world 3 4 2048
      (by decide)).1 (by decide)).2,
   ((fcntl_below_offset_by_command sample_consts sample_env sample_world 3 1 0
      (by decide)).2.1 (by decide) (by decide)).2,
   (fcntl_below_offset_by_command sample_consts sample_env sample_world 3 0 10
      (by decide)).2.2 (by decide) (by decide)⟩

/-- C7 (what the code does): on a valid Connected session at a key at or above
`TSSX_KEY_OFFSET`, `fcntl(key, F_SETFD, flags)` is handled like `F_SETFL`: it
returns `SUCCESS` and overwrites the Connection's non-blocking flag with
`flags & O_NONBLOCK`.  Every command other than `F_SETFL`, `F_SETFD` and
`F_GETFL` returns `ERROR` and leaves the connections unchanged. -/
theorem fcntl_setfd_on_connected (k : Consts) (env : Env) (w : World) (key : Int)
    (s : Session) (a : Nat) (c : Connection) (command flags : Int)
    (h : k.TSSX_KEY_OFFSET ≤ key) (hf : w.finds key s) (hv : s.valid = true)
    (hc : w.connected s a c) :
    ((fcntl k env w key k.F_SETFD flags).1 = .returned k.SUCCESS
      ∧ (fcntl k env w key k.F_SETFD flags).2.connections a
        = some { c with non_blocking := Int.land flags k.O_NONBLOCK })
    ∧ (command ≠ k.F_SETFL → command ≠ k.F_SETFD → command ≠ k.F_GETFL →
        (fcntl k env w key command flags).1 = .returned k.ERROR
        ∧ (fcntl k env w key command flags).2.connections = w.connections) := by
  have h1 : ¬ key < k.TSSX_KEY_OFFSET := not_lt.mpr h
  have h2 : List.find? (fun x => x.key == key) w.bridge.sessions = some s := hf
  obtain ⟨ha, hl⟩ := hc
  refine ⟨?_, fun n1 n2 n3 => ?_⟩
  · simp [fcntl, fcntl_set, h1, h2, hv, ha, hl, bridge_lookup, session_is_valid,
      set_non_blocking, World.record, World.store]
  · by_cases hg : command = k.F_GETFD
    · subst hg
      simp [fcntl, fcntl_get, n1, n2, n3, h1, h2, hv, ha, bridge_lookup,
        session_is_valid, World.record]
    · simp [fcntl, n1, n2, n3, hg]

/-- C7 at the failing input: on the sample Connected session, key 1000002,
whose non-blocking flag is set, `fcntl(key, F_SETFD, FD_CLOEXEC)` (command 2,
flags 1) returns `SUCCESS` (0), not `ERROR` (-1), and clears the flag. -/
theorem fcntl_setfd_on_connected_witness :
    sample_world.connections 64
      = some { client_buffer := 128, server_buffer := 256, non_blocking := 2048 }
    ∧ (fcntl sample_consts sample_env sample_world 1000002 2 1).1 = .returned 0
    ∧ (fcntl sample_consts sample_env sample_world 1000002 2 1).2.connections 64
      = some { client_buffer := 128, server_buffer := 256, non_blocking := 0 } :=
  have h := (fcntl_setfd_on_connected sample_consts sample_env sample_world 1000002
    { key := 1000002, socket := 8, connection := .object 64, valid := true } 64
    { client_buffer := 128, server_buffer := 256, non_blocking := 2048 } 0 1
    (by decide) rfl rfl ⟨rfl, rfl⟩).1
  ⟨rfl, h.1, h.2⟩

/-- C8: for a descriptor at or above `TSSX_KEY_OFFSET` that the Bridge does not
know or whose session is marked invalid, and for every command and flags,
`fcntl_set` and `fcntl_get` return `ERROR` (they return: no abort, no invalid
access) with `errno` set to `EINVAL`, make no call after the lookup and the
validity check, and leave the Bridge and the connections unchanged. -/
theorem invalid_descriptor_flag_path (k : Consts) (env : Env) (w : World)
    (fd command flags : Int)
    (h : k.TSSX_KEY_OFFSET ≤ fd) (hinv : ∀ s, w.finds fd s → s.valid = false) :
    ((fcntl_set k env w fd command flags).1 = .returned k.ERROR
      ∧ (fcntl_set k env w fd command flags).2.errno = k.EINVAL
      ∧ (fcntl_set k env w fd command flags).2.trace
        = w.trace ++ [.bridge_lookup fd, .session_is_valid (bridge_lookup w fd).1]
      ∧ (fcntl_set k env w fd command flags).2.bridge = w.bridge
      ∧ (fcntl_set k env w fd command flags).2.connections = w.connections)
    ∧ ((fcntl_get k env w fd command).1 = .returned k.ERROR
      ∧ (fcntl_get k env w fd command).2.errno = k.EINVAL
      ∧ (fcntl_get k env w fd command).2.trace
        = w.trace ++ [.bridge_lookup fd, .session_is_valid (bridge_lookup w fd).1]
      ∧ (fcntl_get k env w fd command).2.bridge = w.bridge
      ∧ (fcntl_get k env w fd command).2.connections = w.connections) := by
  have h1 : ¬ fd < k.TSSX_KEY_OFFSET := not_lt.mpr h
  cases h2 : List.find? (fun x => x.key == fd) w.bridge.sessions with
  | none =>
    simp [fcntl_set, fcntl_get, h1, h2, bridge_lookup, session_is_valid, World.record]
  | some s =>
    have hv : s.valid = false := hinv s h2
    simp [fcntl_set, fcntl_get, h1, h2, hv, bridge_lookup, session_is_valid, World.record]

/-- Witness of C8 at the sample session marked invalid, key 1000003, and at the
unknown key 2000000, with `errno` 0 before the call. -/
theorem invalid_descriptor_flag_path_witness :
    ((fcntl_set sample_consts sample_env sample_world 1000003 4 2048).1 = .returned (-1)
      ∧ (fcntl_set sample_consts sample_env sample_world 1000003 4 2048).2.errno = 22)
    ∧ ((fcntl_get sample_consts sample_env sample_world 2000000 3).1 = .returned (-1)
      ∧ (fcntl_get sample_consts sample_env sample_world 2000000 3).2.errno = 22) :=
  have h3 := invalid_descriptor_flag_path sample_consts sample_env sample_world 1000003
    4 2048 (by decide)
    (fun s hs => by
      have e : some { key := 1000003, socket := 9, connection := .NULL, valid := false }
          = some s := hs
      cases e
      rfl)
  have h0 := invalid_descriptor_flag_path sample_consts sample_env sample_world 2000000
    3 0 (by decide)
    (fun s hs => by
      have e : (none : Option Session) = some s := hs
      cases e)
  ⟨⟨h3.1.1, h3.1.2.1⟩, ⟨h0.2.1, h0.2.2.1⟩⟩

/-- C9: for a key at or above `TSSX_KEY_OFFSET`, when the looked-up session is
not valid (unknown key or marked invalid) the `assert` of `connection_write`
and `connection_read` fails after the lookup and the validity check alone,
with the state unchanged; when the session is valid the `assert` does not
fail; and a data-transfer call (real read or write, or a Buffer call) made by
either function implies that the session is valid. -/
theorem io_path_assertion (k : Consts) (env : Env) (w : World) (key : Int) (pointer : Nat)
    (requested_bytes which_buffer : Int) (h : k.TSSX_KEY_OFFSET ≤ key) :
    ((∀ s, w.finds key s → s.valid = false) →
      connection_write k env w key pointer requested_bytes which_buffer
          = (.assertion_failed,
              (w.record (.bridge_lookup key)).record
                (.session_is_valid (bridge_lookup w key).1))
        ∧ connection_read k env w key pointer requested_bytes which_buffer
          = (.assertion_failed,
              (w.record (.bridge_lookup key)).record
                (.session_is_valid (bridge_lookup w key).1)))
    ∧ (∀ s, w.finds key s → s.valid = true →
        (connection_write k env w key pointer requested_bytes which_buffer).1
          ≠ .assertion_failed
        ∧ (connection_read k env w key pointer requested_bytes which_buffer).1
          ≠ .assertion_failed)
    ∧ (∀ c, c.is_transfer = true →
        (c ∈ (connection_write k env w key pointer requested_bytes which_buffer).2.trace
          ∨ c ∈ (connection_read k env w key pointer requested_bytes which_buffer).2.trace) →
        c ∈ w.trace ∨ ∃ s, w.finds key s ∧ s.valid = true) := by
  have h1 : ¬ key < k.TSSX_KEY_OFFSET := not_lt.mpr h
  have abort : (∀ s, w.finds key s → s.valid = false) →
      connection_write k env w key pointer requested_bytes which_buffer
          = (.assertion_failed,
              (w.record (.bridge_lookup key)).record
                (.session_is_valid (bridge_lookup w key).1))
        ∧ connection_read k env w key pointer requested_bytes which_buffer
          = (.assertion_failed,
              (w.record (.bridge_lookup key)).record
                (.session_is_valid (bridge_lookup w key).1)) := by
    intro hinv
    cases h2 : List.find? (fun x => x.key == key) w.bridge.sessions with
    | none =>
      simp [connection_write, connection_read, h1, h2, bridge_lookup, session_is_valid,
        World.record]
    | some s =>
      have hv : s.valid = false := hinv s h2
      simp [connection_write, connection_read, h1, h2, hv, bridge_lookup, session_is_valid,
        World.record]
  refine ⟨abort, fun s hf hv => ?_, fun c hc hm => ?_⟩
  · have h2 : List.find? (fun x => x.key == key) w.bridge.sessions = some s := hf
    constructor
    · simp only [connection_write, h1, h2, hv, bridge_lookup, session_is_valid, if_false,
        Bool.not_true, Bool.false_eq_true]
      split
      · simp [real_write]
      · split <;> simp [buffer_write]
    · simp only [connection_read, h1, h2, hv, bridge_lookup, session_is_valid, if_false,
        Bool.not_true, Bool.false_eq_true]
      split
      · simp [real_read]
      · split <;> simp [buffer_read]
  · by_cases hex : ∃ s, w.finds key s ∧ s.valid = true
    · exact Or.inr hex
    · left
      have hinv : ∀ s, w.finds key s → s.valid = false := fun s hf => by
        cases hvs : s.valid with
        | false => rfl
        | true => exact absurd ⟨s, hf, hvs⟩ hex
      obtain ⟨ew, er⟩ := abort hinv
      rw [ew, er] at hm
      simp only [World.record, List.append_assoc, List.mem_append, List.mem_cons,
        List.mem_singleton, List.not_mem_nil, or_false, or_self] at hm
      rcases hm with hm | hm | hm
      · exact hm
      · subst hm
        simp [Call.is_transfer] at hc
      · subst hm
        simp [Call.is_transfer] at hc

/-- Witness of C9: at the sample session marked invalid, key 1000003, both
functions abort having made only the lookup and the validity check; at the
sample SocketOnly session, key 1000000, the `assert` passes. -/
theorem io_path_assertion_witness :
    ((connection_write sample_consts sample_env sample_world 1000003 0 16 1).1
        = .assertion_failed
      ∧ (connection_read sample_consts sample_env sample_world 1000003 0 16 1).2.trace
        = [.bridge_lookup 1000003,
            .session_is_valid
              (some { key := 1000003, socket := 9, connection := .NULL, valid := false })])
    ∧ (connection_write sample_consts sample_env sample_world 1000000 0 16 1).1
        ≠ .assertion_failed :=
  have h3 := (io_path_assertion sample_consts sample_env sample_world 1000003 0 16 1
    (by decide)).1
    (fun s hs => by
      have e : some { key := 1000003, socket := 9, connection := .NULL, valid := false }
          = some s := hs
      cases e
      rfl)
  have h0 := (io_path_assertion sample_consts sample_env sample_world 1000000 0 16 1
    (by decide)).2.1 { key := 1000000, socket := 5, connection := .NULL, valid := true }
    rfl rfl
  ⟨⟨congrArg Prod.fst h3.1, congrArg (fun r => r.2.trace) h3.2⟩, h0.1⟩

/-- C10: `fork` asks `bridge_is_initialized` once; when the Bridge is
initialized it then calls `bridge_add_user` once and after it the real `fork`
once, otherwise the real `fork` once and `bridge_add_user` not at all; it
returns the value of that real `fork`; the attachment count afterwards is the
count before plus 1 when initialized and the count before otherwise. -/
theorem fork_attachment_count (env : Env) (w : World) :
    (fork env w).2.trace
        = w.trace ++
          (if w.bridge.initialized then
            [.bridge_is_initialized, .bridge_add_user, .libc_fork]
          else [.bridge_is_initialized, .libc_fork])
    ∧ (fork env w).1
        = .returned (env.libc_fork
            (if w.bridge.initialized then bridge_add_user (w.record .bridge_is_initialized)
              else w.record .bridge_is_initialized))
    ∧ (fork env w).2.bridge.users
        = w.bridge.users + (if w.bridge.initialized then 1 else 0)
    ∧ (fork env w).2.bridge.sessions = w.bridge.sessions
    ∧ (fork env w).2.bridge.initialized = w.bridge.initialized
    ∧ (fork env w).2.connections = w.connections := by
  cases hi : w.bridge.initialized <;>
    simp [fork, bridge_is_initialized, bridge_add_user, real_fork, World.record, hi]

/-- C11: on a valid Connected session at a key at or above `TSSX_KEY_OFFSET`,
`connection_write` returns what `buffer_write(B, source, requested_bytes)`
returns and `connection_read` what `buffer_read(B, destination,
requested_bytes)` returns, where `B` is the Connection's `client_buffer` when
`which_buffer` is non-zero and its `server_buffer` when it is 0; the calls made
are the lookup, the validity check, `get_buffer` and that one Buffer call (no
real read or write), and the Bridge and the connections are unchanged.  A
write and a read with the same `which_buffer` therefore use the same Buffer. -/
theorem connected_io_dispatch (k : Consts) (env : Env) (w : World) (key : Int) (s : Session)
    (a : Nat) (c : Connection) (pointer : Nat) (requested_bytes which_buffer : Int)
    (h : k.TSSX_KEY_OFFSET ≤ key) (hf : w.finds key s) (hv : s.valid = true)
    (hc : w.connected s a c) :
    (get_buffer w (.object a) which_buffer).1
        = some (if which_buffer ≠ 0 then c.client_buffer else c.server_buffer)
    ∧ (connection_write k env w key pointer requested_bytes which_buffer
        = buffer_write env
            (((w.record (.bridge_lookup key)).record (.session_is_valid (some s))).record
              (.get_buffer (.object a) which_buffer))
            (if which_buffer ≠ 0 then c.client_buffer else c.server_buffer)
            pointer requested_bytes
      ∧ (connection_write k env w key pointer requested_bytes which_buffer).2.trace
        = w.trace ++ [.bridge_lookup key, .session_is_valid (some s),
            .get_buffer (.object a) which_buffer,
            .buffer_write (if which_buffer ≠ 0 then c.client_buffer else c.server_buffer)
              pointer requested_bytes]
      ∧ (connection_write k env w key pointer requested_bytes which_buffer).2.bridge
        = w.bridge
      ∧ (connection_write k env w key pointer requested_bytes which_buffer).2.connections
        = w.connections)
    ∧ (connection_read k env w key pointer requested_bytes which_buffer
        = buffer_read env
            (((w.record (.bridge_lookup key)).record (.session_is_valid (some s))).record
              (.get_buffer (.object a) which_buffer))
            (if which_buffer ≠ 0 then c.client_buffer else c.server_buffer)
            pointer requested_bytes
      ∧ (connection_read k env w key pointer requested_bytes which_buffer).2.trace
        = w.trace ++ [.bridge_lookup key, .session_is_valid (some s),
            .get_buffer (.object a) which_buffer,
            .buffer_read (if which_buffer ≠ 0 then c.client_buffer else c.server_buffer)
              pointer requested_bytes]
      ∧ (connection_read k env w key pointer requested_bytes which_buffer).2.bridge
        = w.bridge
      ∧ (connection_read k env w key pointer requested_bytes which_buffer).2.connections
        = w.connections) := by
  have h1 : ¬ key < k.TSSX_KEY_OFFSET := not_lt.mpr h
  have h2 : List.find? (fun x => x.key == key) w.bridge.sessions = some s := hf
  obtain ⟨ha, hl⟩ := hc
  refine ⟨?_, ?_, ?_⟩
  · simp [get_buffer, World.load, hl]
  · simp [connection_write, h1, h2, hv, ha, hl, bridge_lookup, session_is_valid,
      get_buffer, buffer_write, World.record, World.load]
  · simp [connection_read, h1, h2, hv, ha, hl, bridge_lookup, session_is_valid,
      get_buffer, buffer_read, World.record, World.load]

/-- Witness of C11 at the sample Connected session, key 1000002, whose
Connection has `client_buffer` 128 and `server_buffer` 256: a non-zero
`which_buffer` writes to 128, `which_buffer` 0 reads from 256. -/
theorem connected_io_dispatch_witness :
    (connection_write sample_consts sample_env sample_world 1000002 0 16 5).2.trace
        = [.bridge_lookup 1000002,
            .session_is_valid
              (some { key := 1000002, socket := 8, connection := .object 64, valid := true }),
            .get_buffer (.object 64) 5, .buffer_write 128 0 16]
    ∧ (connection_read sample_consts sample_env sample_world 1000002 0 16 0).2.trace
        = [.bridge_lookup 1000002,
            .session_is_valid
              (some { key := 1000002, socket := 8, connection := .object 64, valid := true }),
            .get_buffer (.object 64) 0, .buffer_read 256 0 16] :=
  ⟨(connected_io_dispatch sample_consts sample_env sample_world 1000002
      { key := 1000002, socket := 8, connection := .object 64, valid := true } 64
      { client_buffer := 128, server_buffer := 256, non_blocking := 2048 } 0 16 5
      (by decide) rfl rfl ⟨rfl, rfl⟩).2.1.2.1,
   (connected_io_dispatch sample_consts sample_env sample_world 1000002
      { key := 1000002, socket := 8, connection := .object 64, valid := true } 64
      { client_buffer := 128, server_buffer := 256, non_blocking := 2048 } 0 16 0
      (by decide) rfl rfl ⟨rfl, rfl⟩).2.2.2.1⟩

/-- C12 (what the code does): on a valid MetaStable session at a key at or
above `TSSX_KEY_OFFSET`, `fcntl_get` fails with `errno` set to `EINVAL`, and
`fcntl_set` fails with `errno` left at the value it held before the call. -/
theorem meta_stable_errno (k : Consts) (env : Env) (w : World) (key : Int)
    (s : Session) (command flags : Int)
    (h : k.TSSX_KEY_OFFSET ≤ key) (hf : w.finds key s) (hv : s.valid = true)
    (hm : s.connection = .META_STABLE_CONNECTION) :
    ((fcntl_get k env w key command).1 = .returned k.ERROR
      ∧ (fcntl_get k env w key command).2.errno = k.EINVAL)
    ∧ ((fcntl_set k env w key command flags).1 = .returned k.ERROR
      ∧ (fcntl_set k env w key command flags).2.errno = w.errno) := by
  have h1 : ¬ key < k.TSSX_KEY_OFFSET := not_lt.mpr h
  have h2 : List.find? (fun x => x.key == key) w.bridge.sessions = some s := hf
  simp [fcntl_set, fcntl_get, h1, h2, hv, hm, bridge_lookup, session_is_valid, World.record]

/-- C12 at the failing input: on the sample MetaStable session, key 1000001,
with `errno` 0 before the call, `fcntl_set(key, F_SETFL, O_NONBLOCK)` returns
`ERROR` and `errno` is still 0, not `EINVAL` (22); `fcntl_get` sets 22. -/
theorem meta_stable_errno_witness :
    sample_world.errno = 0
    ∧ (fcntl_set sample_consts sample_env sample_world 1000001 4 2048).1 = .returned (-1)
    ∧ (fcntl_set sample_consts sample_env sample_world 1000001 4 2048).2.errno = 0
    ∧ (fcntl_get sample_consts sample_env sample_world 1000001 3).2.errno = 22 :=
  have h := meta_stable_errno sample_consts sample_env sample_world 1000001
    { key := 1000001, socket := 6, connection := .META_STABLE_CONNECTION, valid := true }
    4 2048 (by decide) rfl rfl rfl
  ⟨rfl, h.2.1, h.2.2,
   (meta_stable_errno sample_consts sample_env sample_world 1000001
      { key := 1000001, socket := 6, connection := .META_STABLE_CONNECTION, valid := true }
      3 0 (by decide) rfl rfl rfl).1.2⟩

/-- C13: `socket_is_stream_and_domain(domain, type)` is 1 exactly when
`domain == AF_LOCAL` and `type == SOCK_STREAM`, and 0 in every other case; in
particular it is 0 for `AF_LOCAL` with a type that is `SOCK_STREAM` or-ed with
bits that change its value. -/
theorem local_stream_recognition (k : Consts) (domain type : Int) :
    (socket_is_stream_and_domain k domain type = 1
        ↔ domain = k.AF_LOCAL ∧ type = k.SOCK_STREAM)
    ∧ (socket_is_stream_and_domain k domain type = 0
        ↔ ¬ (domain = k.AF_LOCAL ∧ type = k.SOCK_STREAM))
    ∧ (socket_is_stream_and_domain k domain type ≠ 0
        ↔ domain = k.AF_LOCAL ∧ type = k.SOCK_STREAM)
    ∧ (∀ bits : Int, Int.lor k.SOCK_STREAM bits ≠ k.SOCK_STREAM →
        socket_is_stream_and_domain k k.AF_LOCAL (Int.lor k.SOCK_STREAM bits) = 0) := by
  refine ⟨?_, ?_, ?_, fun bits hb => ?_⟩
  · by_cases hd : domain = k.AF_LOCAL ∧ type = k.SOCK_STREAM <;>
      simp [socket_is_stream_and_domain, hd]
  · by_cases hd : domain = k.AF_LOCAL ∧ type = k.SOCK_STREAM <;>
      simp [socket_is_stream_and_domain, hd]
  · by_cases hd : domain = k.AF_LOCAL ∧ type = k.SOCK_STREAM <;>
      simp [socket_is_stream_and_domain, hd]
  · simp [socket_is_stream_and_domain, hb]

/-- Witness of C13 with the sample constants (`AF_LOCAL` 1, `SOCK_STREAM` 1):
a stream type or-ed with `SOCK_NONBLOCK` (2048 on Linux) is not recognised,
and the exact pair is. -/
theorem local_stream_recognition_witness :
    socket_is_stream_and_domain sample_consts 1 (Int.lor 1 2048) = 0
    ∧ socket_is_stream_and_domain sample_consts 1 1 = 1 :=
  ⟨(local_stream_recognition sample_consts 1 1).2.2.2 2048 (by decide),
   (local_stream_recognition sample_consts 1 1).1.mpr ⟨rfl, rfl⟩⟩

/-- C14: on a valid Connected session at a key at or above `TSSX_KEY_OFFSET`,
`fcntl_get(key, F_GETFL)` returns `O_NONBLOCK` when the Connection's
non-blocking flag is non-zero and 0 when it is zero, which is not `ERROR` as
long as `ERROR` is neither 0 nor `O_NONBLOCK`; `fcntl_get(key, F_GETFD)`
returns `ERROR`, `F_GETFD` and `F_GETFL` being different commands. -/
theorem connected_flag_query (k : Consts) (env : Env) (w : World) (key : Int) (s : Session)
    (a : Nat) (c : Connection)
    (h : k.TSSX_KEY_OFFSET ≤ key) (hf : w.finds key s) (hv : s.valid = true)
    (hc : w.connected s a c) :
    (fcntl_get k env w key k.F_GETFL).1
        = .returned (if c.non_blocking ≠ 0 then k.O_NONBLOCK else 0)
    ∧ (c.non_blocking ≠ 0 → (fcntl_get k env w key k.F_GETFL).1 = .returned k.O_NONBLOCK)
    ∧ (c.non_blocking = 0 → (fcntl_get k env w key k.F_GETFL).1 = .returned 0)
    ∧ (k.ERROR ≠ 0 → k.ERROR ≠ k.O_NONBLOCK →
        (fcntl_get k env w key k.F_GETFL).1 ≠ .returned k.ERROR)
    ∧ (k.F_GETFD ≠ k.F_GETFL → (fcntl_get k env w key k.F_GETFD).1 = .returned k.ERROR) := by
  have h1 : ¬ key < k.TSSX_KEY_OFFSET := not_lt.mpr h
  have h2 : List.find? (fun x => x.key == key) w.bridge.sessions = some s := hf
  obtain ⟨ha, hl⟩ := hc
  have e : (fcntl_get k env w key k.F_GETFL).1
      = .returned (if c.non_blocking ≠ 0 then k.O_NONBLOCK else 0) := by
    simp [fcntl_get, h1, h2, hv, ha, hl, bridge_lookup, session_is_valid,
      get_non_blocking, World.record, World.load]
  refine ⟨e, fun hn => ?_, fun hz => ?_, fun e0 e1 => ?_, fun hd => ?_⟩
  · rw [e, if_pos hn]
  · rw [e, if_neg (not_not.mpr hz)]
  · rw [e]
    by_cases hn : c.non_blocking ≠ 0
    · rw [if_pos hn]
      intro hx
      exact e1 (Outcome.returned.inj hx).symm
    · rw [if_neg hn]
      intro hx
      exact e0 (Outcome.returned.inj hx).symm
  · simp [fcntl_get, h1, h2, hv, ha, hd, bridge_lookup, session_is_valid, World.record]

/-- Witness of C14 at the sample Connected session, key 1000002, whose
non-blocking flag is set: `F_GETFL` (3) gives `O_NONBLOCK` (2048), `F_GETFD`
(1) gives `ERROR` (-1). -/
theorem connected_flag_query_witness :
    (fcntl_get sample_consts sample_env sample_world 1000002 3).1 = .returned 2048
    ∧ (fcntl_get sample_consts sample_env sample_world 1000002 3).1 ≠ .returned (-1)
    ∧ (fcntl_get sample_consts sample_env sample_world 1000002 1).1 = .returned (-1) :=
  have h := connected_flag_query sample_consts sample_env sample_world 1000002
    { key := 1000002, socket := 8, connection := .object 64, valid := true } 64
    { client_buffer := 128, server_buffer := 256, non_blocking := 2048 }
    (by decide) rfl rfl ⟨rfl, rfl⟩
  ⟨h.2.1 (by decide), h.2.2.2.1 (by decide) (by decide), h.2.2.2.2 (by decide)⟩

/-- C15: on a valid Connected session at a key at or above `TSSX_KEY_OFFSET`,
two flag words with the same `flags & O_NONBLOCK` make `fcntl_set(key,
F_SETFL, _)` return `SUCCESS` with the same resulting state; the calls made
are the lookup, the validity check and `set_non_blocking` (no real `fcntl`);
the stored flag is `flags & O_NONBLOCK`, the other bits are dropped; a second
call with any flag word `g` leaves the connections as one call with `g`
alone does (last call wins, and with `g` the same word: idempotent). -/
theorem only_nonblock_bit_matters (k : Consts) (env : Env) (w : World) (key : Int)
    (s : Session) (a : Nat) (c : Connection) (f1 f2 : Int)
    (h : k.TSSX_KEY_OFFSET ≤ key) (hf : w.finds key s) (hv : s.valid = true)
    (hc : w.connected s a c)
    (hb : Int.land f1 k.O_NONBLOCK = Int.land f2 k.O_NONBLOCK) :
    (fcntl_set k env w key k.F_SETFL f1).1 = .returned k.SUCCESS
    ∧ (fcntl_set k env w key k.F_SETFL f2).1 = .returned k.SUCCESS
    ∧ fcntl_set k env w key k.F_SETFL f1 = fcntl_set k env w key k.F_SETFL f2
    ∧ (fcntl_set k env w key k.F_SETFL f1).2.trace
        = w.trace ++ [.bridge_lookup key, .session_is_valid (some s),
            .set_non_blocking (.object a) (Int.land f1 k.O_NONBLOCK)]
    ∧ (fcntl_set k env w key k.F_SETFL f1).2.connections a
        = some { c with non_blocking := Int.land f1 k.O_NONBLOCK }
    ∧ (fcntl_set k env w key k.F_SETFL f1).2.bridge = w.bridge
    ∧ (∀ g : Int,
        (fcntl_set k env (fcntl_set k env w key k.F_SETFL f1).2 key k.F_SETFL g).1
            = .returned k.SUCCESS
          ∧ (fcntl_set k env (fcntl_set k env w key k.F_SETFL f1).2 key k.F_SETFL g).2.connections
            = (fcntl_set k env w key k.F_SETFL g).2.connections
          ∧ (fcntl_set k env (fcntl_set k env w key k.F_SETFL f1).2 key k.F_SETFL g).2.bridge
            = (fcntl_set k env w key k.F_SETFL g).2.bridge)
    ∧ (fcntl_set k env (fcntl_set k env w key k.F_SETFL f1).2 key k.F_SETFL f1).2.connections
        = (fcntl_set k env w key k.F_SETFL f1).2.connections := by
  have h1 : ¬ key < k.TSSX_KEY_OFFSET := not_lt.mpr h
  have h2 : List.find? (fun x => x.key == key) w.bridge.sessions = some s := hf
  obtain ⟨ha, hl⟩ := hc
  have once : ∀ f : Int, fcntl_set k env w key k.F_SETFL f
      = (.returned k.SUCCESS,
          (((w.record (.bridge_lookup key)).record (.session_is_valid (some s))).record
            (.set_non_blocking (.object a) (Int.land f k.O_NONBLOCK))).store a
            { c with non_blocking := Int.land f k.O_NONBLOCK }) := by
    intro f
    simp [fcntl_set, h1, h2, hv, ha, hl, bridge_lookup, session_is_valid,
      set_non_blocking, World.record, World.store]
  have twice : ∀ f g : Int,
      (fcntl_set k env (fcntl_set k env w key k.F_SETFL f).2 key k.F_SETFL g).1
          = .returned k.SUCCESS
        ∧ (fcntl_set k env (fcntl_set k env w key k.F_SETFL f).2 key k.F_SETFL g).2.connections
          = (fcntl_set k env w key k.F_SETFL g).2.connections
        ∧ (fcntl_set k env (fcntl_set k env w key k.F_SETFL f).2 key k.F_SETFL g).2.bridge
          = (fcntl_set k env w key k.F_SETFL g).2.bridge := by
    intro f g
    rw [once f, once g]
    refine ⟨?_, ?_, ?_⟩
    · simp [fcntl_set, h1, h2, hv, ha, bridge_lookup, session_is_valid,
        set_non_blocking, World.record, World.store]
    · simp only [fcntl_set, h1, h2, hv, ha, bridge_lookup, session_is_valid,
        set_non_blocking, World.record, World.store, if_false, if_true, Bool.not_true,
        Bool.false_eq_true, reduceCtorEq]
      funext x
      by_cases hx : x = a <;> simp [hx]
    · simp [fcntl_set, h1, h2, hv, ha, bridge_lookup, session_is_valid,
        set_non_blocking, World.record, World.store]
  refine ⟨?_, ?_, ?_, ?_, ?_, ?_, fun g => twice f1 g, (twice f1 f1).2.1⟩
  · rw [once f1]
  · rw [once f2]
  · rw [once f1, once f2, hb]
  · rw [once f1]
    simp [World.record, World.store]
  · rw [once f1]
    simp [World.store]
  · rw [once f1]
    simp [World.record, World.store]

/-- Witness of C15 at the sample Connected session, key 1000002, with
`O_NONBLOCK | O_APPEND` (3072) and `O_NONBLOCK` (2048): the stored flag is
2048 for both, and a following call with 1024 clears it. -/
theorem only_nonblock_bit_matters_witness :
    fcntl_set sample_consts sample_env sample_world 1000002 4 3072
        = fcntl_set sample_consts sample_env sample_world 1000002 4 2048
    ∧ (fcntl_set sample_consts sample_env sample_world 1000002 4 3072).2.connections 64
        = some { client_buffer := 128, server_buffer := 256, non_blocking := 2048 }
    ∧ (fcntl_set sample_consts sample_env
          (fcntl_set sample_consts sample_env sample_world 1000002 4 3072).2
          1000002 4 1024).2.connections
        = (fcntl_set sample_consts sample_env sample_world 1000002 4 1024).2.connections :=
  have h := only_nonblock_bit_matters sample_consts sample_env sample_world 1000002
    { key := 1000002, socket := 8, connection := .object 64, valid := true } 64
    { client_buffer := 128, server_buffer := 256, non_blocking := 2048 } 3072 2048
    (by decide) rfl rfl ⟨rfl, rfl⟩ (by decide)
  ⟨h.2.2.1, h.2.2.2.2.1, (h.2.2.2.2.2.2.1 1024).2.1⟩

/-- C16: for every descriptor, command and flags, `fcntl_set` leaves the Bridge
(the key-to-session mapping with every Session's key, socket, validity and
connection field, and the attachment count) unchanged and leaves the two
buffers of every Connection unchanged; a Connection object that differs
afterwards is the one that the valid Connected session looked up under `fd`
addresses, `fd` is at or above `TSSX_KEY_OFFSET`, and the difference is that
its non-blocking flag now holds `flags & O_NONBLOCK`. -/
theorem fcntl_set_frame (k : Consts) (env : Env) (w : World) (fd command flags : Int) :
    (fcntl_set k env w fd command flags).2.bridge = w.bridge
    ∧ (∀ x, ((fcntl_set k env w fd command flags).2.connections x).map
          (fun c => (c.client_buffer, c.server_buffer))
        = (w.connections x).map (fun c => (c.client_buffer, c.server_buffer)))
    ∧ (∀ x, (fcntl_set k env w fd command flags).2.connections x ≠ w.connections x →
        k.TSSX_KEY_OFFSET ≤ fd
        ∧ ∃ s c, w.finds fd s ∧ s.valid = true ∧ w.connected s x c
          ∧ (fcntl_set k env w fd command flags).2.connections x
            = some { c with non_blocking := Int.land flags k.O_NONBLOCK }) := by
  by_cases h1 : fd < k.TSSX_KEY_OFFSET
  · simp [fcntl_set, h1, real_fcntl_set_flags, World.record]
  · have hge : k.TSSX_KEY_OFFSET ≤ fd := not_lt.mp h1
    cases h2 : List.find? (fun x => x.key == fd) w.bridge.sessions with
    | none =>
      simp [fcntl_set, h1, h2, bridge_lookup, session_is_valid, World.record]
    | some s =>
      cases hv : s.valid with
      | false =>
        simp [fcntl_set, h1, h2, hv, bridge_lookup, session_is_valid, World.record]
      | true =>
        cases hp : s.connection with
        | NULL =>
          simp [fcntl_set, h1, h2, hv, hp, bridge_lookup, session_is_valid,
            real_fcntl_set_flags, World.record]
        | META_STABLE_CONNECTION =>
          simp [fcntl_set, h1, h2, hv, hp, bridge_lookup, session_is_valid, World.record]
        | object a =>
          cases hl : w.connections a with
          | none =>
            simp [fcntl_set, h1, h2, hv, hp, hl, bridge_lookup, session_is_valid,
              set_non_blocking, World.record]
          | some c =>
            have e : fcntl_set k env w fd command flags
                = (.returned k.SUCCESS,
                    (((w.record (.bridge_lookup fd)).record
                        (.session_is_valid (some s))).record
                      (.set_non_blocking (.object a) (Int.land flags k.O_NONBLOCK))).store a
                      { c with non_blocking := Int.land flags k.O_NONBLOCK }) := by
              simp [fcntl_set, h1, h2, hv, hp, hl, bridge_lookup, session_is_valid,
                set_non_blocking, World.record, World.store]
            rw [e]
            refine ⟨by simp [World.record, World.store], fun x => ?_, fun x hx => ?_⟩
            · by_cases hxa : x = a
              · subst hxa
                simp [World.record, World.store, hl]
              · simp [World.record, World.store, hxa]
            · by_cases hxa : x = a
              · subst hxa
                exact ⟨hge, s, c, h2, hv, ⟨hp, hl⟩, by simp [World.record, World.store]⟩
              · exact absurd (by simp [World.record, World.store, hxa]) hx

/-- Witness of C16: on the sample Connected session, key 1000002,
`fcntl_set(key, F_SETFL, 0)` leaves the Bridge unchanged and the buffers of
the Connection at address 64 unchanged. -/
theorem fcntl_set_frame_witness :
    (fcntl_set sample_consts sample_env sample_world 1000002 4 0).2.bridge
        = sample_world.bridge
    ∧ ((fcntl_set sample_consts sample_env sample_world 1000002 4 0).2.connections 64).map
          (fun c => (c.client_buffer, c.server_buffer))
        = some (128, 256) :=
  ⟨(fcntl_set_frame sample_consts sample_env sample_world 1000002 4 0).1,
   (fcntl_set_frame sample_consts sample_env sample_world 1000002 4 0).2.1 64⟩

/-- C17: for every descriptor and command, `fcntl_get` leaves the Bridge (the
mapping and every Session) and every Connection object unchanged; and for a
descriptor at or above `TSSX_KEY_OFFSET` whose session, when valid, has a
Connection or the MetaStable sentinel, a second `fcntl_get` right after the
first ends the same way with the same value. -/
theorem fcntl_get_pure_query (k : Consts) (env : Env) (w : World) (fd command : Int) :
    (fcntl_get k env w fd command).2.bridge = w.bridge
    ∧ (fcntl_get k env w fd command).2.connections = w.connections
    ∧ (k.TSSX_KEY_OFFSET ≤ fd →
        (∀ s, w.finds fd s → s.valid = true → s.connection ≠ .NULL) →
        (fcntl_get k env (fcntl_get k env w fd command).2 fd command).1
          = (fcntl_get k env w fd command).1) := by
  by_cases h1 : fd < k.TSSX_KEY_OFFSET
  · simp [fcntl_get, h1, real_fcntl_get_flags, World.record]
  · cases h2 : List.find? (fun x => x.key == fd) w.bridge.sessions with
    | none =>
      simp [fcntl_get, h1, h2, bridge_lookup, session_is_valid, World.record]
    | some s =>
      cases hv : s.valid with
      | false =>
        simp [fcntl_get, h1, h2, hv, bridge_lookup, session_is_valid, World.record]
      | true =>
        cases hp : s.connection with
        | NULL =>
          refine ⟨?_, ?_, fun _ hn => absurd hp (hn s h2 hv)⟩
          · simp [fcntl_get, h1, h2, hv, hp, bridge_lookup, session_is_valid,
              real_fcntl_get_flags, World.record]
          · simp [fcntl_get, h1, h2, hv, hp, bridge_lookup, session_is_valid,
              real_fcntl_get_flags, World.record]
        | META_STABLE_CONNECTION =>
          simp [fcntl_get, h1, h2, hv, hp, bridge_lookup, session_is_valid, World.record]
        | object a =>
          by_cases hcmd : command = k.F_GETFL
          · cases hl : w.connections a <;>
              simp [fcntl_get, h1, h2, hv, hp, hl, hcmd, bridge_lookup, session_is_valid,
                get_non_blocking, World.record, World.load]
          · simp [fcntl_get, h1, h2, hv, hp, hcmd, bridge_lookup, session_is_valid,
              World.record]

/-- Witness of C17: on the sample Connected session, key 1000002, and on the
sample MetaStable session, key 1000001, two consecutive `fcntl_get` calls
return the same value, and the connections are unchanged. -/
theorem fcntl_get_pure_query_witness :
    (fcntl_get sample_consts sample_env
        (fcntl_get sample_consts sample_env sample_world 1000002 3).2 1000002 3).1
      = (fcntl_get sample_consts sample_env sample_world 1000002 3).1
    ∧ (fcntl_get sample_consts sample_env
        (fcntl_get sample_consts sample_env sample_world 1000001 3).2 1000001 3).1
      = (fcntl_get sample_consts sample_env sample_world 1000001 3).1
    ∧ (fcntl_get sample_consts sample_env sample_world 1000002 3).2.connections
      = sample_world.connections :=
  ⟨(fcntl_get_pure_query sample_consts sample_env sample_world 1000002 3).2.2 (by decide)
      (fun s hs _ => by
        have e :
            some { key := 1000002, socket := 8, connection := .object 64, valid := true }
              = some s := hs
        cases e
        exact fun hn => by cases hn),
   (fcntl_get_pure_query sample_consts sample_env sample_world 1000001 3).2.2 (by decide)
      (fun s hs _ => by
        have e :
            some (Session.mk 1000001 6 .META_STABLE_CONNECTION true) = some s := hs
        cases e
        exact fun hn => by cases hn),
   (fcntl_get_pure_query sample_consts sample_env sample_world 1000002 3).2.1⟩

/-- At or above the offset `connection_write` treats the key as synthetic. -/
theorem connection_write_routed (k : Consts) (env : Env) (w : World) (key : Int)
    (pointer : Nat) (requested_bytes which_buffer : Int) (h : k.TSSX_KEY_OFFSET ≤ key) :
    w.routed_through_bridge key
      (connection_write k env w key pointer requested_bytes which_buffer) := by
  have h1 : ¬ key < k.TSSX_KEY_OFFSET := not_lt.mpr h
  cases h2 : List.find? (fun x => x.key == key) w.bridge.sessions with
  | none =>
    exact ⟨[.session_is_valid none],
      by simp [connection_write, h1, h2, bridge_lookup, session_is_valid, World.record],
      by simp [Call.real_fd]⟩
  | some s =>
    cases hv : s.valid with
    | false =>
      exact ⟨[.session_is_valid (some s)],
        by simp [connection_write, h1, h2, hv, bridge_lookup, session_is_valid, World.record],
        by simp [Call.real_fd]⟩
    | true =>
      cases hp : s.connection with
      | NULL =>
        refine ⟨[.session_is_valid (some s), .real_write s.socket pointer requested_bytes],
          by simp [connection_write, h1, h2, hv, hp, bridge_lookup, session_is_valid,
            real_write, World.record], ?_⟩
        intro c hc d hd
        simp only [List.mem_cons, List.mem_singleton, List.not_mem_nil, or_false] at hc
        rcases hc with rfl | rfl
        · simp [Call.real_fd] at hd
        · simp only [Call.real_fd, Option.some.injEq] at hd
          exact ⟨s, h2, hv, hp, hd.symm⟩
      | META_STABLE_CONNECTION =>
        exact ⟨[.session_is_valid (some s), .get_buffer .META_STABLE_CONNECTION which_buffer],
          by simp [connection_write, h1, h2, hv, hp, bridge_lookup, session_is_valid,
            get_buffer, World.record, World.load],
          by simp [Call.real_fd]⟩
      | object a =>
        cases hl : w.connections a with
        | none =>
          exact ⟨[.session_is_valid (some s), .get_buffer (.object a) which_buffer],
            by simp [connection_write, h1, h2, hv, hp, hl, bridge_lookup, session_is_valid,
              get_buffer, World.record, World.load],
            by simp [Call.real_fd]⟩
        | some c =>
          exact ⟨[.session_is_valid (some s), .get_buffer (.object a) which_buffer,
              .buffer_write (if which_buffer ≠ 0 then c.client_buffer else c.server_buffer)
                pointer requested_bytes],
            by simp [connection_write, h1, h2, hv, hp, hl, bridge_lookup, session_is_valid,
              get_buffer, buffer_write, World.record, World.load],
            by simp [Call.real_fd]⟩

/-- At or above the offset `connection_read` treats the key as synthetic. -/
theorem connection_read_routed (k : Consts) (env : Env) (w : World) (key : Int)
    (pointer : Nat) (requested_bytes which_buffer : Int) (h : k.TSSX_KEY_OFFSET ≤ key) :
    w.routed_through_bridge key
      (connection_read k env w key pointer requested_bytes which_buffer) := by
  have h1 : ¬ key < k.TSSX_KEY_OFFSET := not_lt.mpr h
  cases h2 : List.find? (fun x => x.key == key) w.bridge.sessions with
  | none =>
    exact ⟨[.session_is_valid none],
      by simp [connection_read, h1, h2, bridge_lookup, session_is_valid, World.record],
      by simp [Call.real_fd]⟩
  | some s =>
    cases hv : s.valid with
    | false =>
      exact ⟨[.session_is_valid (some s)],
        by simp [connection_read, h1, h2, hv, bridge_lookup, session_is_valid, World.record],
        by simp [Call.real_fd]⟩
    | true =>
      cases hp : s.connection with
      | NULL =>
        refine ⟨[.session_is_valid (some s), .real_read s.socket pointer requested_bytes],
          by simp [connection_read, h1, h2, hv, hp, bridge_lookup, session_is_valid,
            real_read, World.record], ?_⟩
        intro c hc d hd
        simp only [List.mem_cons, List.mem_singleton, List.not_mem_nil, or_false] at hc
        rcases hc with rfl | rfl
        · simp [Call.real_fd] at hd
        · simp only [Call.real_fd, Option.some.injEq] at hd
          exact ⟨s, h2, hv, hp, hd.symm⟩
      | META_STABLE_CONNECTION =>
        exact ⟨[.session_is_valid (some s), .get_buffer .META_STABLE_CONNECTION which_buffer],
          by simp [connection_read, h1, h2, hv, hp, bridge_lookup, session_is_valid,
            get_buffer, World.record, World.load],
          by simp [Call.real_fd]⟩
      | object a =>
        cases hl : w.connections a with
        | none =>
          exact ⟨[.session_is_valid (some s), .get_buffer (.object a) which_buffer],
            by simp [connection_read, h1, h2, hv, hp, hl, bridge_lookup, session_is_valid,
              get_buffer, World.record, World.load],
            by simp [Call.real_fd]⟩
        | some c =>
          exact ⟨[.session_is_valid (some s), .get_buffer (.object a) which_buffer,
              .buffer_read (if which_buffer ≠ 0 then c.client_buffer else c.server_buffer)
                pointer requested_bytes],
            by simp [connection_read, h1, h2, hv, hp, hl, bridge_lookup, session_is_valid,
              get_buffer, buffer_read, World.record, World.load],
            by simp [Call.real_fd]⟩

/-- At or above the offset `fcntl_set` treats the descriptor as synthetic. -/
theorem fcntl_set_routed (k : Consts) (env : Env) (w : World) (fd command flags : Int)
    (h : k.TSSX_KEY_OFFSET ≤ fd) :
    w.routed_through_bridge fd (fcntl_set k env w fd command flags) := by
  have h1 : ¬ fd < k.TSSX_KEY_OFFSET := not_lt.mpr h
  cases h2 : List.find? (fun x => x.key == fd) w.bridge.sessions with
  | none =>
    exact ⟨[.session_is_valid none],
      by simp [fcntl_set, h1, h2, bridge_lookup, session_is_valid, World.record],
      by simp [Call.real_fd]⟩
  | some s =>
    cases hv : s.valid with
    | false =>
      exact ⟨[.session_is_valid (some s)],
        by simp [fcntl_set, h1, h2, hv, bridge_lookup, session_is_valid, World.record],
        by simp [Call.real_fd]⟩
    | true =>
      cases hp : s.connection with
      | NULL =>
        refine ⟨[.session_is_valid (some s), .libc_fcntl s.socket command (some flags)],
          by simp [fcntl_set, h1, h2, hv, hp, bridge_lookup, session_is_valid,
            real_fcntl_set_flags, World.record], ?_⟩
        intro c hc d hd
        simp only [List.mem_cons, List.mem_singleton, List.not_mem_nil, or_false] at hc
        rcases hc with rfl | rfl
        · simp [Call.real_fd] at hd
        · simp only [Call.real_fd, Option.some.injEq] at hd
          exact ⟨s, h2, hv, hp, hd.symm⟩
      | META_STABLE_CONNECTION =>
        exact ⟨[.session_is_valid (some s)],
          by simp [fcntl_set, h1, h2, hv, hp, bridge_lookup, session_is_valid, World.record],
          by simp [Call.real_fd]⟩
      | object a =>
        cases hl : w.connections a with
        | none =>
          exact ⟨[.session_is_valid (some s)],
            by simp [fcntl_set, h1, h2, hv, hp, hl, bridge_lookup, session_is_valid,
              set_non_blocking, World.record],
            by simp [Call.real_fd]⟩
        | some c =>
          exact ⟨[.session_is_valid (some s),
              .set_non_blocking (.object a) (Int.land flags k.O_NONBLOCK)],
            by simp [fcntl_set, h1, h2, hv, hp, hl, bridge_lookup, session_is_valid,
              set_non_blocking, World.record, World.store],
            by simp [Call.real_fd]⟩

/-- At or above the offset `fcntl_get` treats the descriptor as synthetic. -/
theorem fcntl_get_routed (k : Consts) (env : Env) (w : World) (fd command : Int)
    (h : k.TSSX_KEY_OFFSET ≤ fd) :
    w.routed_through_bridge fd (fcntl_get k env w fd command) := by
  have h1 : ¬ fd < k.TSSX_KEY_OFFSET := not_lt.mpr h
  cases h2 : List.find? (fun x => x.key == fd) w.bridge.sessions with
  | none =>
    exact ⟨[.session_is_valid none],
      by simp [fcntl_get, h1, h2, bridge_lookup, session_is_valid, World.record],
      by simp [Call.real_fd]⟩
  | some s =>
    cases hv : s.valid with
    | false =>
      exact ⟨[.session_is_valid (some s)],
        by simp [fcntl_get, h1, h2, hv, bridge_lookup, session_is_valid, World.record],
        by simp [Call.real_fd]⟩
    | true =>
      cases hp : s.connection with
      | NULL =>
        refine ⟨[.session_is_valid (some s), .libc_fcntl s.socket command none],
          by simp [fcntl_get, h1, h2, hv, hp, bridge_lookup, session_is_valid,
            real_fcntl_get_flags, World.record], ?_⟩
        intro c hc d hd
        simp only [List.mem_cons, List.mem_singleton, List.not_mem_nil, or_false] at hc
        rcases hc with rfl | rfl
        · simp [Call.real_fd] at hd
        · simp only [Call.real_fd, Option.some.injEq] at hd
          exact ⟨s, h2, hv, hp, hd.symm⟩
      | META_STABLE_CONNECTION =>
        exact ⟨[.session_is_valid (some s)],
          by simp [fcntl_get, h1, h2, hv, hp, bridge_lookup, session_is_valid, World.record],
          by simp [Call.real_fd]⟩
      | object a =>
        by_cases hcmd : command = k.F_GETFL
        · refine ⟨[.session_is_valid (some s), .get_non_blocking (.object a)], ?_,
            by simp [Call.real_fd]⟩
          cases hl : w.connections a <;>
            simp [fcntl_get, h1, h2, hv, hp, hl, hcmd, bridge_lookup, session_is_valid,
              get_non_blocking, World.record, World.load]
        · exact ⟨[.session_is_valid (some s)],
            by simp [fcntl_get, h1, h2, hv, hp, hcmd, bridge_lookup, session_is_valid,
              World.record],
            by simp [Call.real_fd]⟩

/-- C18: the four functions route on `key < TSSX_KEY_OFFSET`.  A descriptor
equal to `TSSX_KEY_OFFSET` is a synthetic key: it is looked up in the Bridge
first, and a real call made afterwards is on the `socket` of the session found,
not on the key.  The descriptor `TSSX_KEY_OFFSET - 1` goes unchanged to the
real call, which is the only call made: it is not looked up. -/
theorem key_space_boundary (k : Consts) (env : Env) (w : World) (pointer : Nat)
    (requested_bytes which_buffer command flags : Int) :
    (w.routed_through_bridge k.TSSX_KEY_OFFSET
        (connection_write k env w k.TSSX_KEY_OFFSET pointer requested_bytes which_buffer)
      ∧ w.routed_through_bridge k.TSSX_KEY_OFFSET
        (connection_read k env w k.TSSX_KEY_OFFSET pointer requested_bytes which_buffer)
      ∧ w.routed_through_bridge k.TSSX_KEY_OFFSET
        (fcntl_set k env w k.TSSX_KEY_OFFSET command flags)
      ∧ w.routed_through_bridge k.TSSX_KEY_OFFSET
        (fcntl_get k env w k.TSSX_KEY_OFFSET command))
    ∧ (connection_write k env w (k.TSSX_KEY_OFFSET - 1) pointer requested_bytes which_buffer
        = (.returned (env.real_write w (k.TSSX_KEY_OFFSET - 1) pointer requested_bytes),
            w.record (.real_write (k.TSSX_KEY_OFFSET - 1) pointer requested_bytes))
      ∧ connection_read k env w (k.TSSX_KEY_OFFSET - 1) pointer requested_bytes which_buffer
        = (.returned (env.real_read w (k.TSSX_KEY_OFFSET - 1) pointer requested_bytes),
            w.record (.real_read (k.TSSX_KEY_OFFSET - 1) pointer requested_bytes))
      ∧ fcntl_set k env w (k.TSSX_KEY_OFFSET - 1) command flags
        = (.returned (env.libc_fcntl w (k.TSSX_KEY_OFFSET - 1) command (some flags)),
            w.record (.libc_fcntl (k.TSSX_KEY_OFFSET - 1) command (some flags)))
      ∧ fcntl_get k env w (k.TSSX_KEY_OFFSET - 1) command
        = (.returned (env.libc_fcntl w (k.TSSX_KEY_OFFSET - 1) command none),
            w.record (.libc_fcntl (k.TSSX_KEY_OFFSET - 1) command none))) := by
  have hlt : k.TSSX_KEY_OFFSET - 1 < k.TSSX_KEY_OFFSET := by omega
  refine ⟨⟨connection_write_routed k env w _ pointer requested_bytes which_buffer le_rfl,
      connection_read_routed k env w _ pointer requested_bytes which_buffer le_rfl,
      fcntl_set_routed k env w _ command flags le_rfl,
      fcntl_get_routed k env w _ command le_rfl⟩, ?_, ?_, ?_, ?_⟩
  · simp [connection_write, hlt, real_write]
  · simp [connection_read, hlt, real_read]
  · simp [fcntl_set, hlt, real_fcntl_set_flags]
  · simp [fcntl_get, hlt, real_fcntl_get_flags]

end Tssx
